import Mathlib

/-!
Verification development for the Recruiter AI monolithic backend.

The definitions below are a shallow embedding of the JavaScript sources:
`src/models/tenant/Application.js` (application lifecycle model),
the auth middleware (`protect`), the candidate controller
(`loginCandidate`, `applyToJob`) and `src/routes/candidates.js`.
Mongoose document state is made explicit: a document carries an `isNew`
flag and a `statusModified` dirty flag for the `status` path; `save`
runs the registered pre-save middleware and then clears both flags.
Timestamps are modelled as natural numbers supplied by the caller
(`new Date()` becomes a `now` parameter).
-/

namespace RecruiterAI

/-- Status enum of `applicationSchema.status` in `Application.js`. -/
inductive AppStatus
  | submitted
  | under_review
  | shortlisted
  | interview_scheduled
  | interviewed
  | selected
  | rejected
  | withdrawn
  | on_hold
  deriving DecidableEq, Repr

/-- String rendering of a status, as it appears in timeline action texts. -/
def AppStatus.str : AppStatus → String
  | .submitted => "submitted"
  | .under_review => "under_review"
  | .shortlisted => "shortlisted"
  | .interview_scheduled => "interview_scheduled"
  | .interviewed => "interviewed"
  | .selected => "selected"
  | .rejected => "rejected"
  | .withdrawn => "withdrawn"
  | .on_hold => "on_hold"

/-- Entry of the embedded `timeline` array of an application document.
Fields that are absent on a given push (e.g. `previousStatus` on the
interview/communication entries) are `none`. -/
structure TimelineEntry where
  action : String
  performedBy : Option Nat
  performedAt : Nat
  notes : Option String
  previousStatus : Option AppStatus
  newStatus : Option AppStatus
  deriving DecidableEq, Repr

/-- Interview sub-record (the fields the embedded methods read). -/
structure Interview where
  itype : String
  scheduledAt : Nat
  interviewer : Nat
  deriving DecidableEq, Repr

/-- Communication sub-record (the fields `addCommunication` reads). -/
structure Communication where
  ctype : String
  subject : String
  sentBy : Nat
  deriving DecidableEq, Repr

/-- An application document: the persisted fields the claims concern plus
the Mongoose bookkeeping flags (`isNew`, and whether the `status` path is
currently marked modified). -/
structure Application where
  jobDescriptionId : Nat
  candidateId : Nat
  status : AppStatus
  timeline : List TimelineEntry
  interviews : List Interview
  communication : List Communication
  isNew : Bool
  statusModified : Bool
  deriving DecidableEq, Repr

/-- Assignment `this.status = s` on a Mongoose document: the path is marked
modified only when the assigned value differs from the current one. -/
def Application.setStatus (app : Application) (s : AppStatus) : Application :=
  { app with status := s, statusModified := app.statusModified || decide (s ≠ app.status) }

/-- The timeline entry pushed by the `pre('save')` middleware of
`applicationSchema`. In the source its `previousStatus` is
`this.constructor.findOne({ _id: this._id }).status`: a property access on
an unawaited query object, which evaluates to `undefined`, hence `none`
here. -/
def hookEntry (s : AppStatus) (now : Nat) : TimelineEntry :=
  { action := "Status changed to " ++ s.str
    performedBy := none
    performedAt := now
    notes := none
    previousStatus := none
    newStatus := some s }

/-- The `pre('save')` middleware: when the `status` path is modified and the
document is not new, push a timeline entry for the change. -/
def Application.preSaveHook (app : Application) (now : Nat) : Application :=
  if app.statusModified && !app.isNew then
    { app with timeline := app.timeline ++ [hookEntry app.status now] }
  else app

/-- Persisting the document: run the pre-save middleware, then the document
is no longer new and no paths remain marked modified. -/
def Application.save (app : Application) (now : Nat) : Application :=
  let app := app.preSaveHook now
  { app with isNew := false, statusModified := false }

/-- The timeline entry pushed explicitly by `updateStatus`. -/
def statusChangeEntry (old new : AppStatus) (performedBy : Option Nat)
    (notes : Option String) (now : Nat) : TimelineEntry :=
  { action := "Status changed from " ++ old.str ++ " to " ++ new.str
    performedBy := performedBy
    performedAt := now
    notes := notes
    previousStatus := some old
    newStatus := some new }

/-- Instance method `updateStatus(newStatus, performedBy, notes)`: record the
previous status, assign the new one, push a timeline entry carrying both,
then save. -/
def Application.updateStatus (app : Application) (newStatus : AppStatus)
    (performedBy : Option Nat) (notes : Option String) (now : Nat) : Application :=
  let previousStatus := app.status
  let app1 := app.setStatus newStatus
  let app2 := { app1 with
    timeline := app1.timeline ++ [statusChangeEntry previousStatus newStatus performedBy notes now] }
  app2.save now

/-- The timeline entry pushed by `scheduleInterview`. -/
def interviewEntry (iv : Interview) (now : Nat) : TimelineEntry :=
  { action := "Interview scheduled for " ++ toString iv.scheduledAt
    performedBy := some iv.interviewer
    performedAt := now
    notes := none
    previousStatus := none
    newStatus := none }

/-- Instance method `scheduleInterview(interviewData)`: push the interview
sub-record and a timeline entry, promote the status to
`interview_scheduled` only from `submitted` or `under_review`, then save. -/
def Application.scheduleInterview (app : Application) (iv : Interview) (now : Nat) : Application :=
  let app1 := { app with
    interviews := app.interviews ++ [iv]
    timeline := app.timeline ++ [interviewEntry iv now] }
  let app2 :=
    if app1.status = .submitted ∨ app1.status = .under_review then
      app1.setStatus .interview_scheduled
    else app1
  app2.save now

/-- The timeline entry pushed by `addCommunication`. -/
def communicationEntry (c : Communication) (now : Nat) : TimelineEntry :=
  { action := c.ctype ++ " sent: " ++ c.subject
    performedBy := some c.sentBy
    performedAt := now
    notes := none
    previousStatus := none
    newStatus := none }

/-- Instance method `addCommunication(communicationData)`: push the
communication sub-record and a timeline entry, then save. The status field
is never assigned. -/
def Application.addCommunication (app : Application) (c : Communication) (now : Nat) : Application :=
  let app1 := { app with
    communication := app.communication ++ [c]
    timeline := app.timeline ++ [communicationEntry c now] }
  app1.save now

/-- Concrete persisted (non-new, clean) application used for C1. -/
def appC1 : Application :=
  { jobDescriptionId := 1, candidateId := 2, status := .submitted,
    timeline := [], interviews := [], communication := [],
    isNew := false, statusModified := false }

/-- C1 counterexample: on a persisted application whose status actually
changes, `updateStatus` appends two timeline entries, not exactly one: the
explicit entry of the method plus the one pushed by the `pre('save')`
middleware. -/
theorem updateStatus_single_entry_cex :
    (appC1.updateStatus .under_review none none 5).timeline.length
      ≠ appC1.timeline.length + 1 := by
  decide

/-- C1 (amended): `updateStatus` appends the explicit timeline entry whose
`previousStatus` is the pre-call status and whose `newStatus` is the
post-call status; this is the only appended entry when the document is new
or the requested status equals the current one, but when the document is
not new and the status differs, the `pre('save')` middleware appends one
further entry (whose `previousStatus` is undefined). The status after the
call is the requested one. -/
theorem updateStatus_timeline_amended (app : Application) (ns : AppStatus)
    (performedBy : Option Nat) (notes : Option String) (now : Nat)
    (hclean : app.statusModified = false) :
    (app.updateStatus ns performedBy notes now).timeline
      = app.timeline ++ [statusChangeEntry app.status ns performedBy notes now]
        ++ (if app.isNew = false ∧ ns ≠ app.status then [hookEntry ns now] else [])
    ∧ (statusChangeEntry app.status ns performedBy notes now).previousStatus = some app.status
    ∧ (statusChangeEntry app.status ns performedBy notes now).newStatus = some ns
    ∧ (app.updateStatus ns performedBy notes now).status = ns := by
  unfold Application.updateStatus Application.save Application.preSaveHook Application.setStatus
  by_cases h : ns = app.status <;> cases hn : app.isNew <;>
    simp [hclean, h, hn, statusChangeEntry, hookEntry]

/-- Concrete persisted application used for the C1 amended witness. -/
def appC1w : Application :=
  { jobDescriptionId := 3, candidateId := 4, status := .shortlisted,
    timeline := [], interviews := [], communication := [],
    isNew := false, statusModified := false }

/-- C1 witness: the amended statement instantiated at a concrete persisted
application moved from `shortlisted` to `rejected`. -/
theorem updateStatus_timeline_amended_witness :
    (appC1w.updateStatus .rejected none none 7).timeline
      = appC1w.timeline ++ [statusChangeEntry appC1w.status .rejected none none 7]
        ++ (if appC1w.isNew = false ∧ AppStatus.rejected ≠ appC1w.status then
              [hookEntry .rejected 7] else [])
    ∧ (statusChangeEntry appC1w.status .rejected none none 7).previousStatus = some appC1w.status
    ∧ (statusChangeEntry appC1w.status .rejected none none 7).newStatus = some AppStatus.rejected
    ∧ (appC1w.updateStatus .rejected none none 7).status = AppStatus.rejected :=
  updateStatus_timeline_amended appC1w .rejected none none 7 rfl

/-- C4: `scheduleInterview` always appends the interview sub-record and at
least one timeline entry (the old timeline is preserved as a prefix), and
the resulting status is `interview_scheduled` exactly when the prior
status was `submitted` or `under_review`, the prior status otherwise. -/
theorem scheduleInterview_spec (app : Application) (iv : Interview) (now : Nat) :
    (app.scheduleInterview iv now).interviews = app.interviews ++ [iv]
    ∧ (∃ s, s ≠ [] ∧ (app.scheduleInterview iv now).timeline = app.timeline ++ s)
    ∧ (app.scheduleInterview iv now).status
        = (if app.status = .submitted ∨ app.status = .under_review then
             AppStatus.interview_scheduled
           else app.status) := by
  unfold Application.scheduleInterview Application.save Application.preSaveHook
    Application.setStatus
  by_cases h : app.status = .submitted ∨ app.status = .under_review <;>
    simp only [h, if_true, if_false, reduceIte] <;>
    constructor
  · split <;> rfl
  · constructor
    · split
      · exact ⟨[interviewEntry iv now, hookEntry .interview_scheduled now], by simp, by simp⟩
      · exact ⟨[interviewEntry iv now], by simp, by simp⟩
    · split <;> rfl
  · split <;> rfl
  · constructor
    · split
      · exact ⟨[interviewEntry iv now, hookEntry app.status now], by simp, by simp⟩
      · exact ⟨[interviewEntry iv now], by simp, by simp⟩
    · split <;> rfl

/-- C9: `addCommunication` on a clean document appends exactly one
communication sub-record and exactly one timeline entry, and leaves the
status unchanged. -/
theorem addCommunication_spec (app : Application) (c : Communication) (now : Nat)
    (hclean : app.statusModified = false) :
    (app.addCommunication c now).communication = app.communication ++ [c]
    ∧ (app.addCommunication c now).timeline = app.timeline ++ [communicationEntry c now]
    ∧ (app.addCommunication c now).status = app.status := by
  unfold Application.addCommunication Application.save Application.preSaveHook
  simp [hclean]

/-- Concrete persisted application used for the C9 witness. -/
def appC9 : Application :=
  { jobDescriptionId := 5, candidateId := 6, status := .interviewed,
    timeline := [], interviews := [], communication := [],
    isNew := false, statusModified := false }

/-- C9 witness: the statement instantiated at a concrete clean application
receiving an email communication. -/
theorem addCommunication_spec_witness :
    (appC9.addCommunication ⟨"email", "Offer", 9⟩ 11).communication
        = appC9.communication ++ [⟨"email", "Offer", 9⟩]
    ∧ (appC9.addCommunication ⟨"email", "Offer", 9⟩ 11).timeline
        = appC9.timeline ++ [communicationEntry ⟨"email", "Offer", 9⟩ 11]
    ∧ (appC9.addCommunication ⟨"email", "Offer", 9⟩ 11).status = appC9.status :=
  addCommunication_spec appC9 ⟨"email", "Offer", 9⟩ 11 rfl

/-! Auth middleware `protect`: tenant/model resolution and identity guard. -/

/-- JavaScript truthiness of an optional string value (`undefined` and the
empty string are falsy). -/
def truthyStr : Option String → Bool
  | none => false
  | some s => !(s = "")

/-- The JavaScript `a || b` operator on optional string values. -/
def jsOr (a b : Option String) : Option String :=
  if truthyStr a then a else b

/-- Database handle bound to the request: the master connection or a tenant
database resolved by key (the connection manager is an external
collaborator, modelled symbolically by the key it was given). -/
inductive DBHandle
  | master
  | tenant (key : String)
  deriving DecidableEq, Repr

/-- Which identity model `protect` selects for the request. -/
inductive ModelKind
  | superAdmin
  | candidate
  | user
  deriving DecidableEq, Repr

/-- Decoded token claims (`decoded`) as read by `protect`. -/
structure Claims where
  role : Option String
  type : Option String
  tenant : Option String
  id : Nat
  deriving DecidableEq, Repr

/-- Result of the tenant/model resolution step of `protect`: either the
request is bound to a database, a model and an optional `req.tenantId`, or
the middleware responds early with a status code and message. -/
inductive ResolveResult
  | ok (db : DBHandle) (model : ModelKind) (tenantId : Option String)
  | err (status : Nat) (message : String)
  deriving DecidableEq, Repr

/-- Tenant/model resolution of `protect`: a `super_admin` role binds to the
master connection and the super-admin model with no tenant lookup;
otherwise the tenant key is `decoded.tenant || req.headers['x-tenant-id']`
(missing gives a 400), candidates bind to the tenant candidate model and
everything else to the tenant user model, with `req.tenantId` set. -/
def protectResolve (c : Claims) (headerTenant : Option String) : ResolveResult :=
  if c.role = some "super_admin" then
    .ok .master .superAdmin none
  else
    match jsOr c.tenant headerTenant with
    | none => .err 400 "Tenant is required for this user type"
    | some t =>
      if t = "" then .err 400 "Tenant is required for this user type"
      else if c.type = some "candidate" then .ok (.tenant t) .candidate (some t)
      else .ok (.tenant t) .user (some t)

/-- C2: the resolution step binds a `super_admin` token to the master
database and super-admin model regardless of any tenant header; a
non-super-admin token of type `candidate` whose tenant key resolves to `T`
binds to tenant `T` and the candidate model; any other non-super-admin
token with tenant key `T` binds to tenant `T` and the staff/user model. -/
theorem protect_binding (c : Claims) (hdr : Option String) :
    (c.role = some "super_admin" →
      protectResolve c hdr = .ok .master .superAdmin none)
    ∧ (∀ t, c.role ≠ some "super_admin" → c.type = some "candidate" →
        jsOr c.tenant hdr = some t → t ≠ "" →
        protectResolve c hdr = .ok (.tenant t) .candidate (some t))
    ∧ (∀ t, c.role ≠ some "super_admin" → c.type ≠ some "candidate" →
        jsOr c.tenant hdr = some t → t ≠ "" →
        protectResolve c hdr = .ok (.tenant t) .user (some t)) := by
  refine ⟨fun h => by simp [protectResolve, h], fun t hr hc ht hne => ?_,
    fun t hr hc ht hne => ?_⟩
  · simp [protectResolve, hr, ht, hne, hc]
  · simp [protectResolve, hr, ht, hne, hc]

/-- C2 witness: a super-admin token is bound to the master database even
with a tenant header present; a candidate token with tenant key `acme` is
bound to the `acme` candidate model. -/
theorem protect_binding_witness :
    protectResolve ⟨some "super_admin", none, none, 1⟩ (some "acme")
        = .ok .master .superAdmin none
    ∧ protectResolve ⟨none, some "candidate", some "acme", 2⟩ (some "other")
        = .ok (.tenant "acme") .candidate (some "acme") :=
  ⟨(protect_binding ⟨some "super_admin", none, none, 1⟩ (some "acme")).1 rfl,
   (protect_binding ⟨none, some "candidate", some "acme", 2⟩ (some "other")).2.1
     "acme" (by simp) rfl rfl (by simp)⟩

/-- Nested `account` sub-document of a loaded identity, as far as the guard
reads it. -/
structure AccountSub where
  isActive : Bool
  deriving DecidableEq, Repr

/-- A loaded identity record as the guard reads it: staff users carry a
top-level `isActive` boolean and no `account` sub-document; candidates
carry no top-level flag (`undefined`) and a nested `account.isActive`. -/
structure Identity where
  isActive : Option Bool
  account : Option AccountSub
  deriving DecidableEq, Repr

/-- JavaScript truthiness of an optional boolean (`undefined` is falsy). -/
def truthyB : Option Bool → Bool
  | none => false
  | some b => b

/-- Result of the identity loading and guarding step of `protect`: the
identity attached as `req.user` together with `req.userType`, or an early
error response. -/
inductive GuardResult
  | ok (user : Identity) (userType : Option String)
  | err (status : Nat) (message : String)
  deriving DecidableEq, Repr

/-- Identity load and guard of `protect`: a missing record gives 401
"User not found"; the inactivity test is the source condition
`!user.isActive && (!user.account || !user.account.isActive)` and gives
401 "Account is inactive"; otherwise the identity is attached. -/
def protectGuard (found : Option Identity) (utype : Option String) : GuardResult :=
  match found with
  | none => .err 401 "User not found"
  | some u =>
    if !(truthyB u.isActive) && (match u.account with
        | none => true
        | some a => !a.isActive) then
      .err 401 "Account is inactive"
    else .ok u utype

/-- C3: the guard fails with 401 when the identity record is missing; for a
candidate-shaped identity (no top-level flag, nested account) it fails
with 401 exactly when the nested account active flag is false, otherwise
attaching the identity; for a staff-shaped identity (top-level flag, no
account) it fails with 401 exactly when the top-level active flag is
false, otherwise attaching the identity. -/
theorem protect_guard_spec (found : Option Identity) (ut : Option String) :
    (found = none → protectGuard found ut = .err 401 "User not found")
    ∧ (∀ a, found = some ⟨none, some a⟩ →
        protectGuard found ut
          = (if a.isActive then .ok ⟨none, some a⟩ ut
             else .err 401 "Account is inactive"))
    ∧ (∀ b, found = some ⟨some b, none⟩ →
        protectGuard found ut
          = (if b then .ok ⟨some b, none⟩ ut
             else .err 401 "Account is inactive")) := by
  refine ⟨fun h => by simp [protectGuard, h], fun a h => ?_, fun b h => ?_⟩
  · subst h
    cases ha : a.isActive <;> simp [protectGuard, truthyB, ha]
  · subst h
    cases b <;> simp [protectGuard, truthyB]

/-- C3 witness: a missing record gives 401; an inactive candidate account
gives 401; an active staff user is attached. -/
theorem protect_guard_spec_witness :
    protectGuard none (some "candidate") = .err 401 "User not found"
    ∧ protectGuard (some ⟨none, some ⟨false⟩⟩) (some "candidate")
        = .err 401 "Account is inactive"
    ∧ protectGuard (some ⟨some true, none⟩) none = .ok ⟨some true, none⟩ none :=
  ⟨(protect_guard_spec none (some "candidate")).1 rfl,
   by
    have h := (protect_guard_spec (some ⟨none, some ⟨false⟩⟩) (some "candidate")).2.1
      ⟨false⟩ rfl
    simpa using h,
   by
    have h := (protect_guard_spec (some ⟨some true, none⟩) none).2.2 true rfl
    simpa using h⟩

/-! Candidate login (`loginCandidate` in the candidate controller). The
Candidate model file itself is not part of the sources, so its instance
methods and virtuals are modelled from the spec (section 4.4). -/

/-- Account sub-record of a candidate as the login flow reads and writes
it. -/
structure CandidateAccount where
  password : String
  isActive : Bool
  loginAttempts : Nat
  lockUntil : Option Nat
  lastLogin : Option Nat
  isEmailVerified : Bool
  deriving DecidableEq, Repr

/-- A candidate record as the controller reads it. -/
structure Candidate where
  id : Nat
  email : String
  account : CandidateAccount
  deriving DecidableEq, Repr

/-- Modelled from the spec: the `isLocked` virtual of the Candidate model
(not under src/) is derived as "lockUntil in the future". -/
def Candidate.isLocked (c : Candidate) (now : Nat) : Bool :=
  match c.account.lockUntil with
  | some t => now < t
  | none => false

/-- Modelled from the spec: `matchPassword` of the Candidate model (not
under src/) compares the supplied credential with the stored one (hashing
abstracted away as plain equality). -/
def Candidate.matchPassword (c : Candidate) (p : String) : Bool :=
  c.account.password = p

/-- Modelled from the spec: `incLoginAttempts` of the Candidate model (not
under src/) increments `loginAttempts` on a failed password match; the
lock threshold and duration are the external policy parameters
`maxAttempts` and `lockDuration`. -/
def Candidate.incLoginAttempts (c : Candidate) (maxAttempts lockDuration now : Nat) : Candidate :=
  let attempts := c.account.loginAttempts + 1
  { c with account := { c.account with
      loginAttempts := attempts
      lockUntil := if maxAttempts ≤ attempts then some (now + lockDuration)
                   else c.account.lockUntil } }

/-- Modelled from the spec: `resetLoginAttempts` of the Candidate model
(not under src/) resets the counter to 0. -/
def Candidate.resetLoginAttempts (c : Candidate) : Candidate :=
  { c with account := { c.account with loginAttempts := 0 } }

/-- Observable checks the login flow performs, in order, used to state
which comparisons a given request reaches. -/
inductive LoginStep
  | lockCheck
  | activeCheck
  | passwordCompare
  deriving DecidableEq, Repr

/-- Outcome of a login request: HTTP status, response message, the
post-state of the matched candidate record (if any), and the trace of
checks performed. -/
structure LoginOutcome where
  status : Nat
  message : String
  candidate : Option Candidate
  trace : List LoginStep
  deriving DecidableEq, Repr

/-- The `loginCandidate` controller: missing fields give 400; an unknown
email gives 401 "Invalid credentials"; a locked account gives 423 before
any password comparison; an inactive account gives 401 "Account is
deactivated", still before any password comparison; a failed match
increments the login attempts and gives 401 "Invalid credentials"; a
successful match resets a positive attempt counter, records the last
login time and gives 200. `found` is the result of the
`Candidate.findOne` lookup by email. -/
def loginCandidate (email password : String) (found : Option Candidate)
    (maxAttempts lockDuration now : Nat) : LoginOutcome :=
  if email = "" ∨ password = "" then
    { status := 400, message := "Please provide email and password",
      candidate := found, trace := [] }
  else
    match found with
    | none =>
      { status := 401, message := "Invalid credentials", candidate := none, trace := [] }
    | some c =>
      if c.isLocked now then
        { status := 423,
          message := "Account is temporarily locked due to too many failed login attempts",
          candidate := some c, trace := [.lockCheck] }
      else if !c.account.isActive then
        { status := 401, message := "Account is deactivated",
          candidate := some c, trace := [.lockCheck, .activeCheck] }
      else if !(c.matchPassword password) then
        { status := 401, message := "Invalid credentials",
          candidate := some (c.incLoginAttempts maxAttempts lockDuration now),
          trace := [.lockCheck, .activeCheck, .passwordCompare] }
      else
        let c1 := if 0 < c.account.loginAttempts then c.resetLoginAttempts else c
        let c2 := { c1 with account := { c1.account with lastLogin := some now } }
        { status := 200, message := "Login successful", candidate := some c2,
          trace := [.lockCheck, .activeCheck, .passwordCompare] }

/-- C5: a locked candidate is rejected with 423, no password comparison is
performed and the stored record is unchanged; the locked message differs
from the inactive-account message; and in every login request the
inactive-account check precedes any password comparison. -/
theorem login_locked_spec (email password : String) (c : Candidate)
    (ma ld now : Nat) (hemail : email ≠ "") (hpass : password ≠ "")
    (hlock : c.isLocked now = true) :
    (loginCandidate email password (some c) ma ld now).status = 423
    ∧ (loginCandidate email password (some c) ma ld now).candidate = some c
    ∧ LoginStep.passwordCompare ∉ (loginCandidate email password (some c) ma ld now).trace
    ∧ (loginCandidate email password (some c) ma ld now).message
        ≠ "Account is deactivated"
    ∧ (∀ f e p, LoginStep.passwordCompare ∈ (loginCandidate e p f ma ld now).trace →
        (loginCandidate e p f ma ld now).trace
          = [LoginStep.lockCheck, LoginStep.activeCheck, LoginStep.passwordCompare]) := by
  refine ⟨?_, ?_, ?_, ?_, ?_⟩
  · simp [loginCandidate, hemail, hpass, hlock]
  · simp [loginCandidate, hemail, hpass, hlock]
  · simp [loginCandidate, hemail, hpass, hlock]
  · simp [loginCandidate, hemail, hpass, hlock]
  · intro f e p hmem
    by_cases he : e = "" ∨ p = ""
    · simp [loginCandidate, he] at hmem
    · cases f with
      | none => simp [loginCandidate, he] at hmem
      | some d =>
        by_cases hl : d.isLocked now = true
        · simp [loginCandidate, he, hl] at hmem
        · by_cases hact : d.account.isActive = true
          · by_cases hm : d.matchPassword p = true
            · simp [loginCandidate, he, hl, hact, hm]
            · simp [loginCandidate, he, hl, hact, hm]
          · simp [loginCandidate, he, hl, hact] at hmem

/-- Concrete locked candidate used for the C5 witness. -/
def lockedCand : Candidate :=
  { id := 1, email := "a@x.com",
    account := { password := "pw", isActive := true, loginAttempts := 5,
                 lockUntil := some 100, lastLogin := none, isEmailVerified := true } }

/-- C5 witness: a concrete locked candidate with a correct password is
rejected with 423 and left unchanged. -/
theorem login_locked_spec_witness :
    (loginCandidate "a@x.com" "pw" (some lockedCand) 5 900 10).status = 423
    ∧ (loginCandidate "a@x.com" "pw" (some lockedCand) 5 900 10).candidate = some lockedCand
    ∧ LoginStep.passwordCompare ∉ (loginCandidate "a@x.com" "pw" (some lockedCand) 5 900 10).trace
    ∧ (loginCandidate "a@x.com" "pw" (some lockedCand) 5 900 10).message
        ≠ "Account is deactivated"
    ∧ (∀ f e p, LoginStep.passwordCompare ∈ (loginCandidate e p f 5 900 10).trace →
        (loginCandidate e p f 5 900 10).trace
          = [LoginStep.lockCheck, LoginStep.activeCheck, LoginStep.passwordCompare]) :=
  login_locked_spec "a@x.com" "pw" lockedCand 5 900 10 (by simp) (by simp) rfl

/-- C6: for a found, unlocked, active candidate, a failed password match
returns 401 "Invalid credentials" with `loginAttempts` incremented by
exactly one (hence strictly increased), and a successful match returns
200 with `loginAttempts` reset to 0 and `lastLogin` recorded as the
current time. -/
theorem login_attempts_spec (email password : String) (c : Candidate)
    (ma ld now : Nat) (hemail : email ≠ "") (hpass : password ≠ "")
    (hlock : c.isLocked now = false) (hact : c.account.isActive = true) :
    (c.matchPassword password = false →
      (loginCandidate email password (some c) ma ld now).status = 401
      ∧ (loginCandidate email password (some c) ma ld now).message = "Invalid credentials"
      ∧ ∃ d, (loginCandidate email password (some c) ma ld now).candidate = some d
          ∧ d.account.loginAttempts = c.account.loginAttempts + 1
          ∧ c.account.loginAttempts < d.account.loginAttempts)
    ∧ (c.matchPassword password = true →
      (loginCandidate email password (some c) ma ld now).status = 200
      ∧ ∃ d, (loginCandidate email password (some c) ma ld now).candidate = some d
          ∧ d.account.loginAttempts = 0
          ∧ d.account.lastLogin = some now) := by
  constructor
  · intro hm
    refine ⟨by simp [loginCandidate, hemail, hpass, hlock, hact, hm],
      by simp [loginCandidate, hemail, hpass, hlock, hact, hm],
      ⟨c.incLoginAttempts ma ld now, ?_, rfl, Nat.lt_succ_self _⟩⟩
    simp [loginCandidate, hemail, hpass, hlock, hact, hm]
  · intro hm
    by_cases h0 : 0 < c.account.loginAttempts
    · refine ⟨by simp [loginCandidate, hemail, hpass, hlock, hact, hm], ?_⟩
      refine ⟨{ c.resetLoginAttempts with
        account := { c.resetLoginAttempts.account with lastLogin := some now } }, ?_, rfl, rfl⟩
      simp [loginCandidate, hemail, hpass, hlock, hact, hm, h0]
    · have hz : c.account.loginAttempts = 0 := Nat.eq_zero_of_not_pos h0
      refine ⟨by simp [loginCandidate, hemail, hpass, hlock, hact, hm], ?_⟩
      refine ⟨{ c with account := { c.account with lastLogin := some now } }, ?_, hz, rfl⟩
      simp [loginCandidate, hemail, hpass, hlock, hact, hm, h0]

/-- Concrete unlocked active candidate used for the C6 witness. -/
def activeCand : Candidate :=
  { id := 2, email := "b@x.com",
    account := { password := "secret", isActive := true, loginAttempts := 2,
                 lockUntil := none, lastLogin := none, isEmailVerified := true } }

/-- C6 witness: the statement instantiated at a concrete unlocked active
candidate with two prior failed attempts. -/
theorem login_attempts_spec_witness :
    (activeCand.matchPassword "wrong" = false →
      (loginCandidate "b@x.com" "wrong" (some activeCand) 5 900 20).status = 401
      ∧ (loginCandidate "b@x.com" "wrong" (some activeCand) 5 900 20).message
          = "Invalid credentials"
      ∧ ∃ d, (loginCandidate "b@x.com" "wrong" (some activeCand) 5 900 20).candidate = some d
          ∧ d.account.loginAttempts = activeCand.account.loginAttempts + 1
          ∧ activeCand.account.loginAttempts < d.account.loginAttempts)
    ∧ (activeCand.matchPassword "wrong" = true →
      (loginCandidate "b@x.com" "wrong" (some activeCand) 5 900 20).status = 200
      ∧ ∃ d, (loginCandidate "b@x.com" "wrong" (some activeCand) 5 900 20).candidate = some d
          ∧ d.account.loginAttempts = 0
          ∧ d.account.lastLogin = some 20) :=
  login_attempts_spec "b@x.com" "wrong" activeCand 5 900 20 (by simp) (by simp) rfl rfl

/-! Public application submission (`applyToJob` in the candidate
controller). The JobDescription model file is not part of the sources, so
its `isDeadlinePassed` virtual, `applicationSettings` shape and
`incrementApplications` method are modelled from the spec; the document
store is an explicit in-memory store with `findOne` as first match. -/

/-- Application settings of a job, as `applyToJob` reads them. -/
structure JobSettings where
  allowMultipleApplications : Bool
  deriving DecidableEq, Repr

/-- A job description record as `applyToJob` reads it. -/
structure Job where
  id : Nat
  shareableLink : String
  isActive : Bool
  status : String
  deadline : Option Nat
  applicationSettings : JobSettings
  applicationsCount : Nat
  deriving DecidableEq, Repr

/-- Modelled from the spec: the `isDeadlinePassed` virtual of the
JobDescription model (not under src/): the application deadline, when
set, lies in the past. -/
def Job.isDeadlinePassed (j : Job) (now : Nat) : Bool :=
  match j.deadline with
  | some d => d < now
  | none => false

/-- Candidate data submitted with an application (the fields `applyToJob`
reads: the email inside `personalInfo` and the optional password). -/
structure CandidateData where
  email : String
  password : Option String
  deriving DecidableEq, Repr

/-- In-memory tenant document store for the apply flow; `nextId` supplies
fresh record ids. -/
structure Store where
  jobs : List Job
  candidates : List Candidate
  applications : List Application
  nextId : Nat
  deriving DecidableEq, Repr

/-- The `JobDescription.findOne` query of `applyToJob`: first job matching
the id-or-shareable-link disjunction that is active and published. -/
def findJob (jobKey : String) (jobs : List Job) : Option Job :=
  jobs.find? fun j =>
    (toString j.id = jobKey || j.shareableLink = jobKey)
      && j.isActive && j.status = "published"

/-- The candidate record `applyToJob` creates when no candidate with the
submitted email exists: the submitted data plus an account sub-document
with `password: candidateData.password || 'TempPassword123!'`,
`isActive: true` and `isEmailVerified: false`. -/
def mkCandidate (cd : CandidateData) (newId : Nat) : Candidate :=
  { id := newId, email := cd.email,
    account := { password := (jsOr cd.password (some "TempPassword123!")).getD ""
                 isActive := true
                 loginAttempts := 0
                 lockUntil := none
                 lastLogin := none
                 isEmailVerified := false } }

/-- The candidate the apply flow operates on: the existing record found by
email, or the freshly created one. -/
def resolvedCandidate (cd : CandidateData) (st : Store) : Candidate :=
  match st.candidates.find? fun c => c.email = cd.email with
  | some c => c
  | none => mkCandidate cd st.nextId

/-- The application document `Application.create` persists in `applyToJob`
(`status: 'submitted'`; saving a new document does not run the
status-change timeline middleware). -/
def Application.create (jobId candId : Nat) (now : Nat) : Application :=
  Application.save
    { jobDescriptionId := jobId, candidateId := candId, status := .submitted,
      timeline := [], interviews := [], communication := [],
      isNew := true, statusModified := true } now

/-- Outcome of an apply request: HTTP status, response message, the store
after the request, and the reported application status when created. -/
structure ApplyOutcome where
  status : Nat
  message : String
  store : Store
  applicationStatus : Option AppStatus
  deriving DecidableEq, Repr

/-- The `applyToJob` controller: look up an active published job by id or
shareable link (404 when absent), reject a passed deadline with 410,
find or silently create the candidate by email, reject a duplicate
(job, candidate) application with 400 unless the job allows multiple
applications, otherwise create the application with status `submitted`,
increment the job application counter (modelled from the spec:
`incrementApplications`, not under src/) and respond 201. -/
def applyToJob (jobKey : String) (cd : CandidateData) (st : Store) (now : Nat) : ApplyOutcome :=
  match findJob jobKey st.jobs with
  | none => { status := 404, message := "Job not found or no longer available",
              store := st, applicationStatus := none }
  | some job =>
    if job.isDeadlinePassed now then
      { status := 410, message := "Application deadline has passed",
        store := st, applicationStatus := none }
    else
      let candidate := resolvedCandidate cd st
      let st1 :=
        match st.candidates.find? fun c => c.email = cd.email with
        | some _ => st
        | none =>
          { st with
            candidates := st.candidates ++ [candidate]
            nextId := st.nextId + 1 }
      let existing := st1.applications.find? fun a =>
        a.jobDescriptionId = job.id && a.candidateId = candidate.id
      if existing.isSome && !job.applicationSettings.allowMultipleApplications then
        { status := 400, message := "You have already applied for this position",
          store := st1, applicationStatus := none }
      else
        let app := Application.create job.id candidate.id now
        let job1 := { job with applicationsCount := job.applicationsCount + 1 }
        let st2 := { st1 with
          applications := st1.applications ++ [app]
          jobs := st1.jobs.map fun x => if x.id = job.id then job1 else x }
        { status := 201, message := "Application submitted successfully",
          store := st2, applicationStatus := some app.status }

/-- Routes registered in `src/routes/candidates.js` before the
`router.use(protect)` line, i.e. reachable without authentication. -/
def publicCandidateRoutes : List String :=
  ["/register", "/login", "/apply/:jobId"]

/-- C7: when the job is found open, the candidate already exists and an
application for the same (job, candidate) pair exists while the job does
not allow multiple applications, `applyToJob` responds 400 with the
duplicate message and the store is unchanged. -/
theorem duplicate_application_guard (jobKey : String) (cd : CandidateData) (st : Store)
    (now : Nat) (job : Job) (c : Candidate) (a : Application)
    (hjob : findJob jobKey st.jobs = some job)
    (hdl : job.isDeadlinePassed now = false)
    (hc : (st.candidates.find? fun x => x.email = cd.email) = some c)
    (ha : (st.applications.find? fun x =>
        x.jobDescriptionId = job.id && x.candidateId = c.id) = some a)
    (hm : job.applicationSettings.allowMultipleApplications = false) :
    (applyToJob jobKey cd st now).status = 400
    ∧ (applyToJob jobKey cd st now).message = "You have already applied for this position"
    ∧ (applyToJob jobKey cd st now).store = st := by
  unfold applyToJob
  rw [hjob]
  simp [hdl, resolvedCandidate, hc, ha, hm]

/-- Concrete job with a pending deadline and no multiple applications,
used for the C7 witness. -/
def jobA : Job :=
  { id := 1, shareableLink := "J1", isActive := true, status := "published",
    deadline := some 100, applicationSettings := ⟨false⟩, applicationsCount := 3 }

/-- Concrete candidate used for the C7 witness. -/
def candA : Candidate :=
  { id := 7, email := "a@x.com",
    account := { password := "pw", isActive := true, loginAttempts := 0,
                 lockUntil := none, lastLogin := none, isEmailVerified := true } }

/-- Concrete existing application of `candA` to `jobA`, for the C7
witness. -/
def appA : Application :=
  { jobDescriptionId := 1, candidateId := 7, status := .submitted,
    timeline := [], interviews := [], communication := [],
    isNew := false, statusModified := false }

/-- Concrete store used for the C7 witness. -/
def stA : Store :=
  { jobs := [jobA], candidates := [candA], applications := [appA], nextId := 8 }

/-- C7 witness: re-applying to `J1` with the already-applied candidate
email gives 400 and leaves the store unchanged. -/
theorem duplicate_application_guard_witness :
    (applyToJob "J1" ⟨"a@x.com", none⟩ stA 10).status = 400
    ∧ (applyToJob "J1" ⟨"a@x.com", none⟩ stA 10).message
        = "You have already applied for this position"
    ∧ (applyToJob "J1" ⟨"a@x.com", none⟩ stA 10).store = stA :=
  duplicate_application_guard "J1" ⟨"a@x.com", none⟩ stA 10 jobA candA appA
    rfl rfl rfl rfl rfl

/-- C8: when the job is found open (published, active, deadline not
passed) and no application exists for the (job, resolved candidate) pair,
`applyToJob` responds 201, appends exactly one new application whose
status is `submitted`, and every job record with the matched job id ends
with its application counter incremented by exactly one. -/
theorem apply_success_spec (jobKey : String) (cd : CandidateData) (st : Store)
    (now : Nat) (job : Job)
    (hjob : findJob jobKey st.jobs = some job)
    (hdl : job.isDeadlinePassed now = false)
    (hnodup : (st.applications.find? fun x =>
        x.jobDescriptionId = job.id && x.candidateId = (resolvedCandidate cd st).id) = none) :
    (applyToJob jobKey cd st now).status = 201
    ∧ (applyToJob jobKey cd st now).store.applications
        = st.applications ++ [Application.create job.id (resolvedCandidate cd st).id now]
    ∧ (Application.create job.id (resolvedCandidate cd st).id now).status = .submitted
    ∧ (applyToJob jobKey cd st now).applicationStatus = some AppStatus.submitted
    ∧ (∀ x ∈ (applyToJob jobKey cd st now).store.jobs,
        x.id = job.id → x.applicationsCount = job.applicationsCount + 1) := by
  unfold applyToJob
  rw [hjob]
  have hcreate : (Application.create job.id (resolvedCandidate cd st).id now).status
      = AppStatus.submitted := rfl
  cases hfc : st.candidates.find? fun x => x.email = cd.email with
  | none =>
    unfold resolvedCandidate at hnodup ⊢
    rw [hfc] at hnodup ⊢
    refine ⟨by simp [hdl, hfc, hnodup], by simp [hdl, hfc, hnodup], rfl,
      by simp [hdl, hfc, hnodup, Application.create, Application.save,
        Application.preSaveHook], ?_⟩
    intro x hx hid
    simp only [hdl, Bool.false_eq_true, if_false, hfc, hnodup,
      Option.isSome_none, Bool.false_and, ApplyOutcome.mk.injEq] at hx
    simp only [List.mem_map] at hx
    obtain ⟨y, hy, hxy⟩ := hx
    by_cases h : y.id = job.id
    · simp only [h, if_true] at hxy
      subst hxy
      rfl
    · simp only [h, if_false] at hxy
      subst hxy
      exact absurd hid h
  | some c =>
    unfold resolvedCandidate at hnodup ⊢
    rw [hfc] at hnodup ⊢
    refine ⟨by simp [hdl, hfc, hnodup], by simp [hdl, hfc, hnodup], rfl,
      by simp [hdl, hfc, hnodup, Application.create, Application.save,
        Application.preSaveHook], ?_⟩
    intro x hx hid
    simp only [hdl, Bool.false_eq_true, if_false, hfc, hnodup,
      Option.isSome_none, Bool.false_and, ApplyOutcome.mk.injEq] at hx
    simp only [List.mem_map] at hx
    obtain ⟨y, hy, hxy⟩ := hx
    by_cases h : y.id = job.id
    · simp only [h, if_true] at hxy
      subst hxy
      rfl
    · simp only [h, if_false] at hxy
      subst hxy
      exact absurd hid h

/-- Concrete job used for the C8 witness. -/
def jobB : Job :=
  { id := 2, shareableLink := "J2", isActive := true, status := "published",
    deadline := some 100, applicationSettings := ⟨false⟩, applicationsCount := 0 }

/-- Concrete candidate used for the C8 witness. -/
def candB : Candidate :=
  { id := 9, email := "b@x.com",
    account := { password := "pw", isActive := true, loginAttempts := 0,
                 lockUntil := none, lastLogin := none, isEmailVerified := true } }

/-- Concrete store with an existing candidate and no applications, used
for the C8 witness. -/
def stB : Store :=
  { jobs := [jobB], candidates := [candB], applications := [], nextId := 10 }

/-- C8 witness: the first application of an existing candidate to `J2`
responds 201, appends one submitted application, and the job counter ends
at 1. -/
theorem apply_success_spec_witness :
    (applyToJob "J2" ⟨"b@x.com", none⟩ stB 10).status = 201
    ∧ (applyToJob "J2" ⟨"b@x.com", none⟩ stB 10).store.applications
        = stB.applications
          ++ [Application.create jobB.id (resolvedCandidate ⟨"b@x.com", none⟩ stB).id 10]
    ∧ (Application.create jobB.id (resolvedCandidate ⟨"b@x.com", none⟩ stB).id 10).status
        = .submitted
    ∧ (applyToJob "J2" ⟨"b@x.com", none⟩ stB 10).applicationStatus = some AppStatus.submitted
    ∧ (∀ x ∈ (applyToJob "J2" ⟨"b@x.com", none⟩ stB 10).store.jobs,
        x.id = jobB.id → x.applicationsCount = jobB.applicationsCount + 1) :=
  apply_success_spec "J2" ⟨"b@x.com", none⟩ stB 10 jobB rfl rfl rfl

/-- C10: when the job is found open and no candidate with the submitted
email exists, `applyToJob` silently appends a freshly created candidate
whose account is active, not email-verified, with the supplied password
when one is given (JavaScript-truthy) and the fixed default
`TempPassword123!` otherwise; and the apply route is registered before
the authentication middleware. -/
theorem apply_creates_candidate (jobKey : String) (cd : CandidateData) (st : Store)
    (now : Nat) (job : Job)
    (hjob : findJob jobKey st.jobs = some job)
    (hdl : job.isDeadlinePassed now = false)
    (hnc : (st.candidates.find? fun x => x.email = cd.email) = none) :
    (applyToJob jobKey cd st now).store.candidates
        = st.candidates ++ [mkCandidate cd st.nextId]
    ∧ (mkCandidate cd st.nextId).account.isActive = true
    ∧ (mkCandidate cd st.nextId).account.isEmailVerified = false
    ∧ (cd.password = none →
        (mkCandidate cd st.nextId).account.password = "TempPassword123!")
    ∧ (∀ p, cd.password = some p → p ≠ "" →
        (mkCandidate cd st.nextId).account.password = p)
    ∧ "/apply/:jobId" ∈ publicCandidateRoutes := by
  refine ⟨?_, rfl, rfl, ?_, ?_, by simp [publicCandidateRoutes]⟩
  · unfold applyToJob
    rw [hjob]
    simp only [hdl, Bool.false_eq_true, if_false]
    unfold resolvedCandidate
    rw [hnc]
    split <;> rfl
  · intro hp
    simp [mkCandidate, jsOr, truthyStr, hp]
  · intro p hp hne
    simp [mkCandidate, jsOr, truthyStr, hp, hne]

/-- Concrete job used for the C10 witness. -/
def jobC : Job :=
  { id := 3, shareableLink := "J3", isActive := true, status := "published",
    deadline := none, applicationSettings := ⟨false⟩, applicationsCount := 0 }

/-- Concrete store with no candidates, used for the C10 witness. -/
def stC : Store :=
  { jobs := [jobC], candidates := [], applications := [], nextId := 1 }

/-- C10 witness: an apply call without a password from an unknown email
appends a candidate with the default password, active and unverified. -/
theorem apply_creates_candidate_witness :
    (applyToJob "J3" ⟨"c@x.com", none⟩ stC 10).store.candidates
        = stC.candidates ++ [mkCandidate ⟨"c@x.com", none⟩ stC.nextId]
    ∧ (mkCandidate ⟨"c@x.com", none⟩ stC.nextId).account.isActive = true
    ∧ (mkCandidate ⟨"c@x.com", none⟩ stC.nextId).account.isEmailVerified = false
    ∧ ((⟨"c@x.com", none⟩ : CandidateData).password = none →
        (mkCandidate ⟨"c@x.com", none⟩ stC.nextId).account.password = "TempPassword123!")
    ∧ (∀ p, (⟨"c@x.com", none⟩ : CandidateData).password = some p → p ≠ "" →
        (mkCandidate ⟨"c@x.com", none⟩ stC.nextId).account.password = p)
    ∧ "/apply/:jobId" ∈ publicCandidateRoutes :=
  apply_creates_candidate "J3" ⟨"c@x.com", none⟩ stC 10 jobC rfl rfl rfl

end RecruiterAI
